import Mathlib

/-!
Verification development for the go-nozzle slow-consumer detection pipeline.

The development shallowly embeds the repository's three source files:
the slow detector (`defaultSlowDetector` with its two relay goroutines and
the `isTruncated` predicate), the consumer composition (`consumer.Close`),
and the raw-consumer construction/validation (`rawConsumer.validate`,
`newRawConsumer`).

Go pointers that may be nil are modelled as `Option`; the generated
protobuf getters (which tolerate a nil receiver) are modelled as total
functions over `Option`; a Go panic (nil field dereference, send on a
closed channel) is modelled explicitly as an error value or a `panicked`
flag.  The two relay goroutines are modelled as list-processing functions:
the input channel is the list of items delivered before the channel
closes, and the nondeterministic `select` between forwarding and
cancellation is resolved by an explicit parameter giving the iteration at
which the cancellation branch wins (if ever).
-/

/-! ## Data model: envelopes (sonde-go `events.Envelope`) -/

/-- Event type tag of an envelope, from the dropsonde protocol
(`events.Envelope_EventType`).  `HttpStart` is the first declared enum
value, hence the default returned by the generated getter on a nil
receiver or unset field. -/
inductive EventType where
  | HttpStart
  | HttpStop
  | HttpStartStop
  | LogMessage
  | ValueMetric
  | CounterEvent
  | ErrorEvent
  | ContainerMetric
deriving DecidableEq, Repr

/-- The `events.CounterEvent` message: proto2 optional fields are `Option`. -/
structure CounterEvent where
  name : Option String
  delta : Option Nat
  total : Option Nat
deriving DecidableEq, Repr

/-- The `events.Envelope` message, restricted to the fields the nozzle
inspects.  A Go `*events.Envelope` is `Option Envelope` (`none` = nil). -/
structure Envelope where
  origin : Option String
  eventType : Option EventType
  counterEvent : Option CounterEvent
deriving DecidableEq, Repr

/-- Generated getter `(*events.Envelope).GetEventType`: nil-receiver safe,
returns the enum default when the receiver or the field is nil. -/
def getEventType : Option Envelope → EventType
  | none => .HttpStart
  | some e => e.eventType.getD .HttpStart

/-- Generated getter `(*events.Envelope).GetOrigin`: nil-receiver safe,
returns the empty string when the receiver or the field is nil. -/
def getOrigin : Option Envelope → String
  | none => ""
  | some e => e.origin.getD ""

/-- Generated getter `(*events.CounterEvent).GetName`: nil-receiver safe,
returns the empty string when the receiver or the field is nil. -/
def CounterEvent.getName : Option CounterEvent → String
  | none => ""
  | some c => c.name.getD ""

/-- The counter-event field of a possibly-nil envelope, as the relay reads
it after the event-type guard. -/
def envCounterEvent (envelope : Option Envelope) : Option CounterEvent :=
  envelope.bind Envelope.counterEvent

/-! ## The anomaly predicate `isTruncated` -/

/-- `isTruncated` from the source, translated conjunct by conjunct with
Go's short-circuit `&&`.  The second conjunct reads the raw field
`envelope.CounterEvent`, which in Go panics when `envelope` itself is nil;
that panic possibility is modelled as the `Except.error` branch.  (The
getters themselves are nil-receiver safe, so a nil `CounterEvent` field is
harmless.) -/
def isTruncated (envelope : Option Envelope) : Except String Bool :=
  if getEventType envelope == .CounterEvent then
    match envelope with
    | none => .error "runtime error: invalid memory address or nil pointer dereference"
    | some e =>
      if CounterEvent.getName e.counterEvent == "TruncatingBuffer.DroppedMessages" then
        if getOrigin envelope == "doppler" then .ok true
        else .ok false
      else .ok false
  else .ok false

/-- The boolean value `isTruncated` computes on the non-panicking paths;
the relay loops use this (the panic path is proved unreachable). -/
def isTruncatedB (envelope : Option Envelope) : Bool :=
  match isTruncated envelope with
  | .ok b => b
  | .error _ => false

/-! ## Stream errors and the policy-violation signature -/

/-- An error value on the websocket error stream: either a
`*websocket.CloseError` (carrying a close status code and text) or any
other error (carrying only a message).  The relay's type switch matches
only the former. -/
inductive StreamError where
  | closeError (code : Int) (text : String)
  | other (msg : String)
deriving DecidableEq, Repr

/-- `websocket.ClosePolicyViolation` from gorilla/websocket (RFC 6455
section 11.7). -/
def ClosePolicyViolation : Int := 1008

/-- Alert message built by the event relay goroutine for a truncation. -/
def slowConsumerAlertMsg : String :=
  "doppler dropped messages from its queue because nozzle is slow"

/-- Alert message built by the error relay goroutine for a policy
violation close. -/
def policyViolationAlertMsg : String :=
  "websocket terminates the connection because connection is too slow (ClosePolicyViolation)"

/-- The error `ctx.Err()` returns after the context has been cancelled. -/
def contextCanceledMsg : String := "context canceled"

/-- Alerts the event relay goroutine sends on `detectCh` while processing
one envelope: one alert when `isTruncated` holds, none otherwise. -/
def truncatedAlerts (envelope : Option Envelope) : List String :=
  if isTruncatedB envelope then [slowConsumerAlertMsg] else []

/-- Alerts the error relay goroutine sends on `detectCh` while processing
one error: the type switch matches `*websocket.CloseError` and compares
its code with `websocket.ClosePolicyViolation`. -/
def policyAlerts : StreamError → List String
  | .closeError code _ => if code == ClosePolicyViolation then [policyViolationAlertMsg] else []
  | .other _ => []

/-! ## The relay loops of `defaultSlowDetector.DetectContext` -/

/-- Observable outcome of one relay goroutine run: the items sent on its
downstream channel (`eventCh_` resp. `errCh_`), the alerts sent on
`detectCh`, the cancellation errors sent on `errCh_` from the
`ctx.Done()` branch, and whether the deferred close of the downstream
channel ran (the goroutine returned). -/
structure RelayResult (α : Type) where
  forwarded : List α
  alerts : List String
  cancelErrs : List String
  closed : Bool
deriving DecidableEq, Repr

/-- One relay goroutine of `DetectContext`, generic in the per-item alert
computation (`truncatedAlerts` for the event goroutine, `policyAlerts`
for the error goroutine).  The input list is the sequence of items the
upstream channel delivers before closing.  `cancelAt = some k` resolves
the `select` nondeterminism: the `ctx.Done()` branch wins at iteration
`k` (0-based), so the current item is not forwarded, `ctx.Err()` is sent
on the error output, and the goroutine returns; `cancelAt = none` (or `k`
beyond the input) means the forward branch wins every iteration.  The
alert send of the current item precedes the `select`, so it happens even
at the cancelled iteration.  Alert and forward sends are assumed to be
drained by the environment (they complete). -/
def relayLoop {α : Type} (alertsOf : α → List String) :
    Option Nat → List α → RelayResult α
  | _, [] => ⟨[], [], [], true⟩
  | some 0, item :: _ => ⟨[], alertsOf item, [contextCanceledMsg], true⟩
  | some (k + 1), item :: rest =>
    let r := relayLoop alertsOf (some k) rest
    ⟨item :: r.forwarded, alertsOf item ++ r.alerts, r.cancelErrs, r.closed⟩
  | none, item :: rest =>
    let r := relayLoop alertsOf none rest
    ⟨item :: r.forwarded, alertsOf item ++ r.alerts, r.cancelErrs, r.closed⟩

/-- The event relay goroutine (`DetectContext`, first `go func`). -/
def eventRelay : Option Nat → List (Option Envelope) → RelayResult (Option Envelope) :=
  relayLoop truncatedAlerts

/-- The error relay goroutine (`DetectContext`, second `go func`). -/
def errRelay : Option Nat → List StreamError → RelayResult StreamError :=
  relayLoop policyAlerts

/-- The event relay goroutine when nothing ever receives on `detectCh`:
the unguarded send `detectCh <- ...` before the `select` blocks forever at
the first anomalous envelope.  Returns the items forwarded before the
stall and whether the goroutine is stalled (blocked on the alert send,
current item never forwarded, downstream channel never closed). -/
def eventRelayUndrained : List (Option Envelope) → List (Option Envelope) × Bool
  | [] => ([], false)
  | e :: rest =>
    if isTruncatedB e then ([], true)
    else
      let r := eventRelayUndrained rest
      (e :: r.1, r.2)

/-- The condition under which the error relay goroutine sends an alert:
its type switch matches `*websocket.CloseError` and the code equals
`websocket.ClosePolicyViolation`. -/
def isPolicyViolationB : StreamError → Bool
  | .closeError code _ => code == ClosePolicyViolation
  | .other _ => false

/-- The error relay goroutine when nothing ever receives on `detectCh`:
the unguarded send `detectCh <- ...` inside the type switch blocks
forever at the first policy-violation close error.  Returns the errors
forwarded before the stall and whether the goroutine is stalled (blocked
on the alert send, current error never forwarded, downstream channel
never closed). -/
def errRelayUndrained : List StreamError → List StreamError × Bool
  | [] => ([], false)
  | er :: rest =>
    if isPolicyViolationB er then ([], true)
    else
      let r := errRelayUndrained rest
      (er :: r.1, r.2)

/-! ## Shutdown interleaving of the two goroutines after cancellation

Both cancellation branches send `ctx.Err()` on the same channel
`errCh_`, which the error relay goroutine closes via `defer` when it
returns.  In Go, a send on a closed channel panics.  The model below
covers the phase after the context has been cancelled and both goroutines
have taken the `ctx.Done()` branch, with a downstream consumer that is
always ready to receive (most favourable environment). -/

/-- Which goroutine the scheduler runs next. -/
inductive LoopId where
  | ev
  | er
deriving DecidableEq, Repr

/-- Remaining steps of one goroutine in the cancellation branch: send
`ctx.Err()` on `errCh_`, then run the deferred close of its own channel
and return. -/
inductive ShutdownPhase where
  | sendCancelErr
  | closeOwn
  | done
deriving DecidableEq, Repr

/-- Joint state of the two goroutines and the channels during shutdown.
`received` lists the values a draining consumer got from `errCh_`. -/
structure ShutdownState where
  evPhase : ShutdownPhase
  erPhase : ShutdownPhase
  errChClosed : Bool
  eventChClosed : Bool
  received : List String
  panicked : Bool
deriving DecidableEq, Repr

/-- Both goroutines have just taken the `ctx.Done()` branch. -/
def shutdownInit : ShutdownState :=
  ⟨.sendCancelErr, .sendCancelErr, false, false, [], false⟩

/-- One scheduler step: run the chosen goroutine's next action.  A send on
`errCh_` after it has been closed panics (Go channel semantics); a panic
aborts the run. -/
def shutdownStep (s : ShutdownState) : LoopId → ShutdownState
  | .ev =>
    if s.panicked then s
    else
      match s.evPhase with
      | .sendCancelErr =>
        if s.errChClosed then { s with panicked := true }
        else { s with received := s.received ++ [contextCanceledMsg], evPhase := .closeOwn }
      | .closeOwn => { s with eventChClosed := true, evPhase := .done }
      | .done => s
  | .er =>
    if s.panicked then s
    else
      match s.erPhase with
      | .sendCancelErr =>
        if s.errChClosed then { s with panicked := true }
        else { s with received := s.received ++ [contextCanceledMsg], erPhase := .closeOwn }
      | .closeOwn => { s with errChClosed := true, erPhase := .done }
      | .done => s

/-- Run the shutdown phase under a given schedule. -/
def runShutdown (sched : List LoopId) : ShutdownState :=
  sched.foldl shutdownStep shutdownInit

/-! ## Detector lifecycle: `Detect`, `DetectContext`, `Stop` -/

/-- The mutable state of a `defaultSlowDetector`: whether `cancelFunc`
has been stored (it starts out nil) and whether the context it controls
has been cancelled. -/
structure DefaultSlowDetector where
  hasCancelFunc : Bool
  ctxCancelled : Bool
deriving DecidableEq, Repr

/-- A freshly constructed detector: `cancelFunc` is the zero value nil. -/
def newDetector : DefaultSlowDetector := ⟨false, false⟩

/-- `defaultSlowDetector.Detect`: wraps a fresh cancellable context,
stores its cancel function in the struct, and delegates to
`DetectContext`. -/
def DefaultSlowDetector.detect (_ : DefaultSlowDetector) : DefaultSlowDetector :=
  ⟨true, false⟩

/-- `defaultSlowDetector.DetectContext` with a caller-supplied context:
starts the relay goroutines but never touches `sd.cancelFunc`. -/
def DefaultSlowDetector.detectContext (sd : DefaultSlowDetector) : DefaultSlowDetector :=
  sd

/-- `defaultSlowDetector.Stop`: errors when `cancelFunc` is nil,
otherwise calls it (cancelling the context, a one-way transition) and
returns nil.  The returned `Option String` is the Go error (`none` =
nil). -/
def DefaultSlowDetector.stop (sd : DefaultSlowDetector) :
    DefaultSlowDetector × Option String :=
  if sd.hasCancelFunc then ({ sd with ctxCancelled := true }, none)
  else (sd, some "cancel function is not given")

/-! ## Consumer composition: `consumer.Close` -/

/-- `consumer.Close`, abstracted over the results its two collaborators
would return: `rawCloseErr` is what `rawConsumer.Close()` returns and
`stopErr` what `slowDetector.Stop()` would return.  The result pairs the
error `Close` returns with whether `Stop` was invoked at all. -/
def consumerClose (rawCloseErr stopErr : Option String) : Option String × Bool :=
  match rawCloseErr with
  | some e => (some e, false)
  | none => (stopErr, true)

/-! ## Raw consumer construction and validation -/

/-- The construction configuration fields `newRawConsumer` copies. -/
structure Config where
  DopplerAddr : String
  Token : String
  SubscriptionID : String
  Insecure : Bool
deriving DecidableEq, Repr

/-- The `rawConsumer` struct fields set by `newRawConsumer`. -/
structure RawConsumer where
  dopplerAddr : String
  token : String
  subscriptionID : String
  insecure : Bool
deriving DecidableEq, Repr

/-- `rawConsumer.validate`: checks the three mandatory fields in order
and returns the first validation error, nil if all are present. -/
def RawConsumer.validate (c : RawConsumer) : Option String :=
  if c.dopplerAddr == "" then some "DopplerAddr must not be empty"
  else if c.token == "" then some "Token must not be empty"
  else if c.subscriptionID == "" then some "SubscriptionID must not be empty"
  else none

/-- `newRawConsumer`: builds the struct from the config and validates it;
on a validation error it returns (nil, err), otherwise (consumer, nil). -/
def newRawConsumer (config : Config) : Except String RawConsumer :=
  let c : RawConsumer :=
    ⟨config.DopplerAddr, config.Token, config.SubscriptionID, config.Insecure⟩
  match c.validate with
  | some e => .error e
  | none => .ok c

/-- A concrete envelope carrying the buffer-overflow signature: a
CounterEvent named `TruncatingBuffer.DroppedMessages` originating from
`doppler`. -/
def truncEnvelope : Envelope :=
  ⟨some "doppler", some .CounterEvent,
   some ⟨some "TruncatingBuffer.DroppedMessages", some 1, some 10⟩⟩

/-! ## Helper lemmas -/

theorem envCounterEvent_some (env : Envelope) :
    envCounterEvent (some env) = env.counterEvent := rfl

theorem relayLoop_none_forwarded {α : Type} (alertsOf : α → List String) (xs : List α) :
    (relayLoop alertsOf none xs).forwarded = xs := by
  induction xs with
  | nil => rfl
  | cons x rest ih => simp [relayLoop, ih]

theorem relayLoop_none_alerts {α : Type} (alertsOf : α → List String) (xs : List α) :
    (relayLoop alertsOf none xs).alerts = xs.flatMap alertsOf := by
  induction xs with
  | nil => rfl
  | cons x rest ih => simp [relayLoop, ih]

theorem isTruncated_eq (e : Option Envelope) :
    isTruncated e =
      .ok (getEventType e == EventType.CounterEvent &&
        (CounterEvent.getName (envCounterEvent e) == "TruncatingBuffer.DroppedMessages" &&
         getOrigin e == "doppler")) := by
  cases e with
  | none => rfl
  | some env =>
    rw [envCounterEvent_some]
    cases h1 : (getEventType (some env) == EventType.CounterEvent) with
    | false => simp [isTruncated, h1]
    | true =>
      cases h2 : (CounterEvent.getName env.counterEvent == "TruncatingBuffer.DroppedMessages") with
      | false => simp [isTruncated, h1, h2]
      | true =>
        cases h3 : (getOrigin (some env) == "doppler") with
        | false => simp [isTruncated, h1, h2, h3]
        | true => simp [isTruncated, h1, h2, h3]

theorem isTruncatedB_eq (e : Option Envelope) :
    isTruncatedB e =
      (getEventType e == EventType.CounterEvent &&
        (CounterEvent.getName (envCounterEvent e) == "TruncatingBuffer.DroppedMessages" &&
         getOrigin e == "doppler")) := by
  unfold isTruncatedB
  rw [isTruncated_eq]

theorem isTruncatedB_iff (e : Option Envelope) :
    isTruncatedB e = true ↔
      (getEventType e = EventType.CounterEvent ∧
       CounterEvent.getName (envCounterEvent e) = "TruncatingBuffer.DroppedMessages" ∧
       getOrigin e = "doppler") := by
  rw [isTruncatedB_eq]
  simp [Bool.and_eq_true, beq_iff_eq]

/-! ## Claim theorems -/

/-- C1: with the pipeline never cancelled, every item delivered by the raw
input channels is forwarded exactly once, unmodified, on the
corresponding output channel, and within each stream the output order
equals the input order (the forwarded list IS the input list). -/
theorem c1_uncancelled_relay_identity (es : List (Option Envelope)) (rs : List StreamError) :
    (eventRelay none es).forwarded = es ∧ (errRelay none rs).forwarded = rs :=
  ⟨relayLoop_none_forwarded truncatedAlerts es, relayLoop_none_forwarded policyAlerts rs⟩

/-- C2: the event relay emits exactly one alert for an envelope iff its
event type is CounterEvent, its counter name is
`TruncatingBuffer.DroppedMessages` and its origin is `doppler`, no alert
otherwise, and every envelope (matching or not) is still forwarded. -/
theorem c2_truncation_alert_iff (es : List (Option Envelope)) (e : Option Envelope) :
    (eventRelay none es).forwarded = es ∧
    (eventRelay none es).alerts = es.flatMap truncatedAlerts ∧
    (truncatedAlerts e = [slowConsumerAlertMsg] ↔
      (getEventType e = EventType.CounterEvent ∧
       CounterEvent.getName (envCounterEvent e) = "TruncatingBuffer.DroppedMessages" ∧
       getOrigin e = "doppler")) ∧
    (truncatedAlerts e = [] ↔
      ¬ (getEventType e = EventType.CounterEvent ∧
         CounterEvent.getName (envCounterEvent e) = "TruncatingBuffer.DroppedMessages" ∧
         getOrigin e = "doppler")) := by
  refine ⟨relayLoop_none_forwarded truncatedAlerts es,
          relayLoop_none_alerts truncatedAlerts es, ?_, ?_⟩
  · rw [← isTruncatedB_iff e]
    unfold truncatedAlerts
    cases h : isTruncatedB e <;> simp [h]
  · rw [← isTruncatedB_iff e]
    unfold truncatedAlerts
    cases h : isTruncatedB e <;> simp [h]

/-- C3: the error relay emits exactly one alert for an error iff it is a
websocket close error with status code 1008 (policy violation), no alert
otherwise, and every error (matching or not) is still forwarded. -/
theorem c3_policy_violation_alert_iff (rs : List StreamError) (er : StreamError) :
    (errRelay none rs).forwarded = rs ∧
    (errRelay none rs).alerts = rs.flatMap policyAlerts ∧
    (policyAlerts er = [policyViolationAlertMsg] ↔
      ∃ text, er = StreamError.closeError 1008 text) ∧
    (policyAlerts er = [] ↔ ¬ ∃ text, er = StreamError.closeError 1008 text) := by
  refine ⟨relayLoop_none_forwarded policyAlerts rs,
          relayLoop_none_alerts policyAlerts rs, ?_, ?_⟩
  · cases er with
    | closeError code text =>
      by_cases h : code = 1008
      · subst h
        simp [policyAlerts, ClosePolicyViolation]
      · simp [policyAlerts, ClosePolicyViolation, beq_iff_eq, h]
    | other m => simp [policyAlerts]
  · cases er with
    | closeError code text =>
      by_cases h : code = 1008
      · subst h
        simp [policyAlerts, ClosePolicyViolation]
      · simp [policyAlerts, ClosePolicyViolation, beq_iff_eq, h]
    | other m => simp [policyAlerts]

/-- C4: with both cancellation branches taken and a consumer always ready
to receive, the schedule in which the error relay goroutine sends its
`ctx.Err()` and runs its deferred close of `errCh_` before the event
relay goroutine's `ctx.Err()` send makes that send hit a closed channel:
the run panics, the event output channel is never closed, and only one
cancellation error (not one per loop) reaches the error output. -/
theorem c4_cancel_send_on_closed_channel :
    (runShutdown [LoopId.er, LoopId.er, LoopId.ev]).panicked = true ∧
    (runShutdown [LoopId.er, LoopId.er, LoopId.ev]).eventChClosed = false ∧
    (runShutdown [LoopId.er, LoopId.er, LoopId.ev]).received = [contextCanceledMsg] ∧
    (runShutdown [LoopId.er, LoopId.er, LoopId.ev]).errChClosed = true := by
  decide

/-- C5 counterexample: for the buffer-overflow envelope, when the alert
channel has no ready receiver the event relay blocks on the alert send
before the forward: the triggering envelope is never forwarded (the
forwarded list stays empty and the loop is stalled), refuting the claim
that alert emission never blocks or drops the relay of the triggering
item regardless of whether the alert channel has a ready receiver. -/
theorem c5_alert_blocks_counterexample :
    isTruncatedB (some truncEnvelope) = true ∧
    (eventRelayUndrained [some truncEnvelope]).1 = [] ∧
    (eventRelayUndrained [some truncEnvelope]).2 = true := by
  decide

theorem truncatedAlerts_ne_nil_iff (e : Option Envelope) :
    truncatedAlerts e ≠ [] ↔ isTruncatedB e = true := by
  unfold truncatedAlerts
  cases h : isTruncatedB e <;> simp [h]

theorem truncatedAlerts_eq_nil_iff (e : Option Envelope) :
    truncatedAlerts e = [] ↔ isTruncatedB e = false := by
  unfold truncatedAlerts
  cases h : isTruncatedB e <;> simp [h]

theorem policyAlerts_ne_nil_iff (er : StreamError) :
    policyAlerts er ≠ [] ↔ isPolicyViolationB er = true := by
  cases er with
  | closeError code text =>
    cases h : (code == ClosePolicyViolation) with
    | false => simp [policyAlerts, isPolicyViolationB, h]
    | true => simp [policyAlerts, isPolicyViolationB, h]
  | other m => simp [policyAlerts, isPolicyViolationB]

theorem policyAlerts_eq_nil_iff (er : StreamError) :
    policyAlerts er = [] ↔ isPolicyViolationB er = false := by
  cases er with
  | closeError code text =>
    cases h : (code == ClosePolicyViolation) with
    | false => simp [policyAlerts, isPolicyViolationB, h]
    | true => simp [policyAlerts, isPolicyViolationB, h]
  | other m => simp [policyAlerts, isPolicyViolationB]

theorem eventRelayUndrained_stall (pre : List (Option Envelope)) (e : Option Envelope)
    (rest : List (Option Envelope)) (he : isTruncatedB e = true)
    (hpre : ∀ x ∈ pre, isTruncatedB x = false) :
    eventRelayUndrained (pre ++ e :: rest) = (pre, true) := by
  induction pre with
  | nil => simp [eventRelayUndrained, he]
  | cons x xs ih =>
    have hx : isTruncatedB x = false := hpre x (by simp)
    have hxs : ∀ y ∈ xs, isTruncatedB y = false := fun y hy => hpre y (by simp [hy])
    simp [eventRelayUndrained, hx, ih hxs]

theorem errRelayUndrained_stall (pre : List StreamError) (er : StreamError)
    (rest : List StreamError) (he : isPolicyViolationB er = true)
    (hpre : ∀ x ∈ pre, isPolicyViolationB x = false) :
    errRelayUndrained (pre ++ er :: rest) = (pre, true) := by
  induction pre with
  | nil => simp [errRelayUndrained, he]
  | cons x xs ih =>
    have hx : isPolicyViolationB x = false := hpre x (by simp)
    have hxs : ∀ y ∈ xs, isPolicyViolationB y = false := fun y hy => hpre y (by simp [hy])
    simp [errRelayUndrained, hx, ih hxs]

/-- C5 (amended): in both relay loops the alert send precedes the
forward and is not raced against anything; when the alert channel is
drained every item, the alert-triggering ones included, is still
forwarded exactly once in order, but when no alert receiver is ever
ready each loop stalls at its first alert-triggering item, wherever it
sits in the stream: items before it are forwarded, the triggering item
and everything after it never are. -/
theorem c5_alert_precedes_forward (pre : List (Option Envelope)) (e : Option Envelope)
    (rest : List (Option Envelope)) (rpre : List StreamError) (er : StreamError)
    (rrest : List StreamError) :
    (eventRelay none (pre ++ e :: rest)).forwarded = pre ++ e :: rest ∧
    (errRelay none (rpre ++ er :: rrest)).forwarded = rpre ++ er :: rrest ∧
    (truncatedAlerts e ≠ [] → (∀ x ∈ pre, truncatedAlerts x = []) →
      eventRelayUndrained (pre ++ e :: rest) = (pre, true)) ∧
    (policyAlerts er ≠ [] → (∀ x ∈ rpre, policyAlerts x = []) →
      errRelayUndrained (rpre ++ er :: rrest) = (rpre, true)) := by
  refine ⟨relayLoop_none_forwarded truncatedAlerts (pre ++ e :: rest),
          relayLoop_none_forwarded policyAlerts (rpre ++ er :: rrest), ?_, ?_⟩
  · intro he hpre
    exact eventRelayUndrained_stall pre e rest ((truncatedAlerts_ne_nil_iff e).mp he)
      (fun x hx => (truncatedAlerts_eq_nil_iff x).mp (hpre x hx))
  · intro he hpre
    exact errRelayUndrained_stall rpre er rrest ((policyAlerts_ne_nil_iff er).mp he)
      (fun x hx => (policyAlerts_eq_nil_iff x).mp (hpre x hx))

/-- C5 witness: the amended theorem applied to a buffer-overflow
envelope preceded by a benign envelope on the event stream, and to a
policy-violation close error preceded by a benign error on the error
stream: with alerts drained everything is forwarded, undrained each loop
forwards only the benign prefix and stalls. -/
theorem c5_alert_precedes_forward_witness :
    (eventRelay none [none, some truncEnvelope]).forwarded = [none, some truncEnvelope] ∧
    (errRelay none [StreamError.other "eof", StreamError.closeError 1008 "policy violation"]).forwarded =
      [StreamError.other "eof", StreamError.closeError 1008 "policy violation"] ∧
    eventRelayUndrained [none, some truncEnvelope] = ([none], true) ∧
    errRelayUndrained [StreamError.other "eof", StreamError.closeError 1008 "policy violation"] =
      ([StreamError.other "eof"], true) := by
  have h := c5_alert_precedes_forward [none] (some truncEnvelope) []
    [StreamError.other "eof"] (StreamError.closeError 1008 "policy violation") []
  exact ⟨h.1, h.2.1,
         h.2.2.1 (by decide) (by intro x hx; simp at hx; subst hx; decide),
         h.2.2.2 (by decide) (by intro x hx; simp at hx; subst hx; decide)⟩

/-- C6: `Stop` before any `Detect` returns the error
`cancel function is not given`; after `Detect`, `Stop` returns nil and
cancels the context; a second `Stop` is a no-op that again returns nil,
leaves the state unchanged, and the context stays cancelled (one-way
transition). -/
theorem c6_stop_lifecycle (sd : DefaultSlowDetector) :
    (newDetector.stop).2 = some "cancel function is not given" ∧
    ((sd.detect).stop).2 = none ∧
    ((sd.detect).stop).1.ctxCancelled = true ∧
    ((((sd.detect).stop).1).stop).2 = none ∧
    ((((sd.detect).stop).1).stop).1 = ((sd.detect).stop).1 ∧
    ((((sd.detect).stop).1).stop).1.ctxCancelled = true := by
  refine ⟨rfl, rfl, rfl, rfl, rfl, rfl⟩

/-- C10: `DetectContext` never stores a cancel function, so on a detector
started only through `DetectContext` a subsequent `Stop` returns the
error `cancel function is not given` and cancels nothing: the
context-started pipeline cannot be stopped through `Stop`. -/
theorem c10_detectContext_unstoppable :
    ((newDetector.detectContext).stop).2 = some "cancel function is not given" ∧
    ((newDetector.detectContext).stop).1.ctxCancelled = false ∧
    (∀ sd : DefaultSlowDetector, sd.detectContext = sd) :=
  ⟨rfl, rfl, fun _ => rfl⟩

/-- C7: `consumer.Close` closes the raw consumer first; a non-nil close
error is returned immediately and `slowDetector.Stop` is not invoked;
otherwise `Close` returns exactly what `Stop` returns, with `Stop`
invoked. -/
theorem c7_close_order (rawCloseErr stopErr : Option String) :
    (∀ e, rawCloseErr = some e → consumerClose rawCloseErr stopErr = (some e, false)) ∧
    (rawCloseErr = none → consumerClose rawCloseErr stopErr = (stopErr, true)) := by
  constructor
  · intro e he
    subst he
    rfl
  · intro he
    subst he
    rfl

/-- C7 witness: a failing raw close short-circuits; a clean raw close
returns the detector's stop result. -/
theorem c7_close_order_witness :
    consumerClose (some "close failed") (some "stop failed") = (some "close failed", false) ∧
    consumerClose none (some "stop failed") = (some "stop failed", true) :=
  ⟨(c7_close_order (some "close failed") (some "stop failed")).1 "close failed" rfl,
   (c7_close_order none (some "stop failed")).2 rfl⟩

/-- C8: `newRawConsumer` fails with a validation error naming the first
missing field when `DopplerAddr`, `Token` or `SubscriptionID` is empty,
and succeeds (returning the populated consumer) when all three are
non-empty. -/
theorem c8_construction_validation (config : Config) :
    (config.DopplerAddr = "" →
      newRawConsumer config = .error "DopplerAddr must not be empty") ∧
    (config.DopplerAddr ≠ "" → config.Token = "" →
      newRawConsumer config = .error "Token must not be empty") ∧
    (config.DopplerAddr ≠ "" → config.Token ≠ "" → config.SubscriptionID = "" →
      newRawConsumer config = .error "SubscriptionID must not be empty") ∧
    (config.DopplerAddr ≠ "" → config.Token ≠ "" → config.SubscriptionID ≠ "" →
      newRawConsumer config =
        .ok ⟨config.DopplerAddr, config.Token, config.SubscriptionID, config.Insecure⟩) := by
  refine ⟨?_, ?_, ?_, ?_⟩
  · intro h1
    simp [newRawConsumer, RawConsumer.validate, h1]
  · intro h1 h2
    simp [newRawConsumer, RawConsumer.validate, h1, h2]
  · intro h1 h2 h3
    simp [newRawConsumer, RawConsumer.validate, h1, h2, h3]
  · intro h1 h2 h3
    simp [newRawConsumer, RawConsumer.validate, h1, h2, h3]

/-- C8 witness: empty `SubscriptionID` fails naming the field; a fully
populated config succeeds. -/
theorem c8_construction_validation_witness :
    newRawConsumer ⟨"wss://doppler.example.com:443", "bearer token", "", false⟩ =
      .error "SubscriptionID must not be empty" ∧
    newRawConsumer ⟨"wss://doppler.example.com:443", "bearer token", "nozzle-A", false⟩ =
      .ok ⟨"wss://doppler.example.com:443", "bearer token", "nozzle-A", false⟩ :=
  ⟨(c8_construction_validation ⟨"wss://doppler.example.com:443", "bearer token", "", false⟩).2.2.1
      (by decide) (by decide) rfl,
   (c8_construction_validation ⟨"wss://doppler.example.com:443", "bearer token", "nozzle-A", false⟩).2.2.2
      (by decide) (by decide) (by decide)⟩

/-- C9: anomaly classification is total: `isTruncated` returns normally
(`Except.ok`) on every input, in particular on a nil envelope and on a
CounterEvent-typed envelope whose counter payload is nil, both of which
are classified as not anomalous. -/
theorem c9_isTruncated_total (e : Option Envelope) (env : Envelope) :
    isTruncated e = .ok (isTruncatedB e) ∧
    isTruncated none = .ok false ∧
    (env.counterEvent = none → isTruncated (some env) = .ok false) := by
  refine ⟨?_, rfl, ?_⟩
  · rw [isTruncated_eq, isTruncatedB_eq]
  · intro h
    rw [isTruncated_eq, envCounterEvent_some, h]
    have hb : (CounterEvent.getName none == "TruncatingBuffer.DroppedMessages") = false := by
      decide
    simp [hb]

/-- C9 witness: the totality theorem applied to a nil envelope and to a
CounterEvent-typed envelope with a nil counter payload. -/
theorem c9_isTruncated_total_witness :
    isTruncated none = .ok (isTruncatedB none) ∧
    isTruncated (some ⟨some "doppler", some EventType.CounterEvent, none⟩) = .ok false :=
  ⟨(c9_isTruncated_total none ⟨some "doppler", some EventType.CounterEvent, none⟩).1,
   (c9_isTruncated_total none ⟨some "doppler", some EventType.CounterEvent, none⟩).2.2 rfl⟩
